import Mathlib

/-!
Verification of the atomic display-commit and explicit-fence pipeline of
kmscube-imx (`drm-atomic.c`), as a shallow embedding.

The embedding follows the source function by function:
* `findPropId` models the name lookup loop shared by the three
  `add_*_property` helpers (the initial value of `prop_id` is a parameter,
  because the connector variant initialises it to `0` while the crtc and
  plane variants initialise it to `-1`);
* `drm_atomic_commit` models the commit function, split into the phases of
  the source (`modesetProps` for the `ALLOW_MODESET` block, `planeProps`
  for the unchecked plane-property writes, `fenceProps` for the
  `OUT_FENCE_PTR` / `IN_FENCE_FD` block, `commitPhase` for submission and
  the in-fence close);
* `atomic_step` models one iteration of the `while (1)` loop of
  `atomic_run`, producing the list of externally visible events of the
  iteration; `atomic_run_trace` iterates it over a list of per-iteration
  environment choices (results of the external EGL / GBM / DRM calls).
-/

namespace KmsCube

/-- `EINVAL` from `errno.h`; the helpers return `-EINVAL` on failure. -/
def EINVAL : Int := 22

/-- `DRM_MODE_ATOMIC_NONBLOCK` from `drm_mode.h`. -/
def DRM_MODE_ATOMIC_NONBLOCK : Nat := 0x0200

/-- `DRM_MODE_ATOMIC_ALLOW_MODESET` from `drm_mode.h`. -/
def DRM_MODE_ATOMIC_ALLOW_MODESET : Nat := 0x0400

/-- Mask used by `flags &= ~(DRM_MODE_ATOMIC_ALLOW_MODESET)` on a 32-bit
`uint32_t`. -/
def CLEAR_ALLOW_MODESET : Nat := 0xFFFFFBFF

/-- `EGL_CONDITION_SATISFIED_KHR` (0x30F6): the status on which the
`do … while` CPU wait loop of `atomic_run` stops. -/
def EGL_CONDITION_SATISFIED_KHR : Int := 0x30F6

/-- A property value carried by an atomic request: either a plain number or
the address `VOID2U64(&drm->kms_out_fence_fd)` passed for
`OUT_FENCE_PTR` (an opaque pointer, distinct from every number). -/
inductive PropValue where
  | num (n : Int)
  | outFencePtr
deriving DecidableEq

/-- One (object-id, property-id, value) triple accumulated in a
`drmModeAtomicReq`. -/
structure Triple where
  obj : Nat
  prop : Int
  val : PropValue
deriving DecidableEq

/-- The three name → property-id tables built by `init_drm_atomic`
(`get_properties` for plane, crtc and connector). -/
structure DrmTables where
  connProps : List (String × Int)
  crtcProps : List (String × Int)
  planeProps : List (String × Int)
deriving DecidableEq

/-- The fields of `struct drm` the atomic path reads and writes. -/
structure Drm where
  tables : DrmTables
  connector_id : Nat
  crtc_id : Nat
  plane_id : Nat
  hdisplay : Nat
  vdisplay : Nat
  kms_in_fence_fd : Int
  kms_out_fence_fd : Int
deriving DecidableEq

/-- The lookup loop of the `add_*_property` helpers: scan the table in
order, return the id of the first name match, and `init` (the initial
value of the C local `prop_id`) when no entry matches. -/
def findPropId (init : Int) (props : List (String × Int)) (name : String) : Int :=
  match props with
  | [] => init
  | p :: rest => if p.1 = name then p.2 else findPropId init rest name

/-- `drmModeAtomicAddProperty`: append the triple to the request and return
the new (nonnegative) cursor position. -/
def drmModeAtomicAddProperty (req : List Triple) (obj : Nat) (prop : Int)
    (v : PropValue) : List Triple × Int :=
  (req ++ [⟨obj, prop, v⟩], Int.ofNat (req.length + 1))

/-- `add_connector_property`: note that the source initialises `prop_id`
to `0`, so the `prop_id < 0` error branch cannot fire for an absent name. -/
def add_connector_property (drm : Drm) (req : List Triple) (obj_id : Nat)
    (name : String) (v : PropValue) : List Triple × Int :=
  let prop_id := findPropId 0 drm.tables.connProps name
  if prop_id < 0 then (req, -EINVAL)
  else drmModeAtomicAddProperty req obj_id prop_id v

/-- `add_crtc_property`: `prop_id` starts at `-1`, so an absent name yields
`-EINVAL` and nothing is appended. -/
def add_crtc_property (drm : Drm) (req : List Triple) (obj_id : Nat)
    (name : String) (v : PropValue) : List Triple × Int :=
  let prop_id := findPropId (-1) drm.tables.crtcProps name
  if prop_id < 0 then (req, -EINVAL)
  else drmModeAtomicAddProperty req obj_id prop_id v

/-- `add_plane_property`: `prop_id` starts at `-1`, so an absent name yields
`-EINVAL` and nothing is appended. -/
def add_plane_property (drm : Drm) (req : List Triple) (obj_id : Nat)
    (name : String) (v : PropValue) : List Triple × Int :=
  let prop_id := findPropId (-1) drm.tables.planeProps name
  if prop_id < 0 then (req, -EINVAL)
  else drmModeAtomicAddProperty req obj_id prop_id v

/-- Choices made by the environment during one `drm_atomic_commit` call:
whether `drmModeCreatePropertyBlob` succeeds and which blob id it returns,
the return value of `drmModeAtomicCommit`, and the out-fence fd the kernel
writes through `OUT_FENCE_PTR` on success. -/
structure CommitEnv where
  blob_ok : Bool
  blob_id : Nat
  commit_ret : Int
  out_fence_val : Int
deriving DecidableEq

/-- Externally visible events of the pipeline loop. -/
inductive Ev where
  | createKmsFence (fd : Int)
  | gpuWait
  | draw (i : Nat)
  | createGpuFence
  | swapBuffers
  | exportGpuFence (fd : Int)
  | destroyGpuFence
  | lockFailed
  | fbFailed
  | cpuWait (status : Int)
  | destroyKmsFence
  | commitSubmit (req : List Triple) (flags : Nat) (ret : Int)
  | closeInFence (fd : Int)
  | releaseBuffer (bo : Nat)
deriving DecidableEq

/-- Result of `drm_atomic_commit`: the C return value, the updated
`struct drm`, and the events it produced (`commitSubmit` appears exactly
when `drmModeAtomicCommit` was actually invoked). -/
structure CommitResult where
  ret : Int
  drm : Drm
  events : List Ev
deriving DecidableEq

/-- The `flags & DRM_MODE_ATOMIC_ALLOW_MODESET` block of
`drm_atomic_commit`: connector `CRTC_ID`, the mode blob, crtc `MODE_ID`
and crtc `ACTIVE`.  Any failure abandons the request (`none`). -/
def modesetProps (drm : Drm) (env : CommitEnv) (req : List Triple) :
    Option (List Triple) :=
  let r1 := add_connector_property drm req drm.connector_id "CRTC_ID"
    (.num drm.crtc_id)
  if r1.2 < 0 then none
  else if env.blob_ok = false then none
  else
    let r2 := add_crtc_property drm r1.1 drm.crtc_id "MODE_ID" (.num env.blob_id)
    if r2.2 < 0 then none
    else
      let r3 := add_crtc_property drm r2.1 drm.crtc_id "ACTIVE" (.num 1)
      if r3.2 < 0 then none
      else some r3.1

/-- The ten unchecked `add_plane_property` calls of `drm_atomic_commit`
(their return values are ignored by the source). -/
def planeProps (drm : Drm) (fb_id : Nat) (req : List Triple) : List Triple :=
  let pid := drm.plane_id
  let r0 := (add_plane_property drm req pid "FB_ID" (.num fb_id)).1
  let r1 := (add_plane_property drm r0 pid "CRTC_ID" (.num drm.crtc_id)).1
  let r2 := (add_plane_property drm r1 pid "SRC_X" (.num 0)).1
  let r3 := (add_plane_property drm r2 pid "SRC_Y" (.num 0)).1
  let r4 := (add_plane_property drm r3 pid "SRC_W"
    (.num ((drm.hdisplay : Int) * 65536))).1
  let r5 := (add_plane_property drm r4 pid "SRC_H"
    (.num ((drm.vdisplay : Int) * 65536))).1
  let r6 := (add_plane_property drm r5 pid "CRTC_X" (.num 0)).1
  let r7 := (add_plane_property drm r6 pid "CRTC_Y" (.num 0)).1
  let r8 := (add_plane_property drm r7 pid "CRTC_W" (.num drm.hdisplay)).1
  let r9 := (add_plane_property drm r8 pid "CRTC_H" (.num drm.vdisplay)).1
  r9

/-- The `kms_in_fence_fd != -1` block: request an out-fence on the crtc and
attach the in-fence to the plane (both return values ignored). -/
def fenceProps (drm : Drm) (req : List Triple) : List Triple :=
  if drm.kms_in_fence_fd ≠ -1 then
    let r0 := (add_crtc_property drm req drm.crtc_id "OUT_FENCE_PTR"
      .outFencePtr).1
    (add_plane_property drm r0 drm.plane_id "IN_FENCE_FD"
      (.num drm.kms_in_fence_fd)).1
  else req

/-- Submission tail of `drm_atomic_commit`: build the full request, call
`drmModeAtomicCommit`; on success the kernel writes the out-fence fd
(only when one was requested, i.e. `kms_in_fence_fd != -1` and
`OUT_FENCE_PTR` resolved), then the source closes the in-fence fd and
resets the field; on failure the state is left untouched. -/
def commitPhase (drm : Drm) (env : CommitEnv) (fb_id : Nat) (flags : Nat)
    (req0 : List Triple) : CommitResult :=
  let req := fenceProps drm (planeProps drm fb_id req0)
  if env.commit_ret ≠ 0 then
    ⟨env.commit_ret, drm, [Ev.commitSubmit req flags env.commit_ret]⟩
  else
    let drm1 :=
      if drm.kms_in_fence_fd ≠ -1 ∧
          0 ≤ findPropId (-1) drm.tables.crtcProps "OUT_FENCE_PTR" then
        { drm with kms_out_fence_fd := env.out_fence_val }
      else drm
    if drm.kms_in_fence_fd ≠ -1 then
      ⟨0, { drm1 with kms_in_fence_fd := -1 },
        [Ev.commitSubmit req flags 0, Ev.closeInFence drm.kms_in_fence_fd]⟩
    else ⟨0, drm1, [Ev.commitSubmit req flags 0]⟩

/-- `drm_atomic_commit` from `drm-atomic.c`.  When the `ALLOW_MODESET`
block fails the function returns `-1` before `drmModeAtomicCommit` is ever
called (no `commitSubmit` event). -/
def drm_atomic_commit (drm : Drm) (env : CommitEnv) (fb_id : Nat)
    (flags : Nat) : CommitResult :=
  match (if flags &&& DRM_MODE_ATOMIC_ALLOW_MODESET ≠ 0 then
      modesetProps drm env [] else some []) with
  | none => ⟨-1, drm, []⟩
  | some req0 => commitPhase drm env fb_id flags req0

/-- The state carried across iterations of the `while (1)` loop of
`atomic_run`: the `struct drm` fields, the local `bo` (buffer released one
iteration late; `NULL` before the first commit), the frame counter `i` and
the local `flags`. -/
structure LoopState where
  drm : Drm
  bo : Option Nat
  i : Nat
  flags : Nat
deriving DecidableEq

/-- Choices made by the environment during one loop iteration: the fd
returned by `eglDupNativeFenceFDANDROID`, whether
`gbm_surface_lock_front_buffer` and `drm_fb_get_from_bo` succeed and what
they return, the statuses returned by successive `eglClientWaitSyncKHR`
calls (after this list is exhausted the wait returns
`EGL_CONDITION_SATISFIED_KHR`), and the commit-time choices. -/
structure IterEnv where
  dup_fd : Int
  lock_ok : Bool
  bo : Nat
  fb_ok : Bool
  fb_id : Nat
  wait_rets : List Int
  commit : CommitEnv
deriving DecidableEq

/-- The `kms_out_fence_fd != -1` block at the top of the loop body: import
the out-fence fd as `kms_fence`, transfer ownership (reset the field to
`-1`) and insert a GPU-side wait, all before `egl->draw` runs. -/
def fenceImportPhase (drm : Drm) : List Ev × Drm :=
  if drm.kms_out_fence_fd ≠ -1 then
    ([Ev.createKmsFence drm.kms_out_fence_fd, Ev.gpuWait],
     { drm with kms_out_fence_fd := -1 })
  else ([], drm)

/-- The `do { status = eglClientWaitSyncKHR(...) } while (status !=
EGL_CONDITION_SATISFIED_KHR)` loop: one `cpuWait` event per invocation.
`rets` are the statuses the environment returns; once exhausted the wait
is satisfied. -/
def runCpuWait (rets : List Int) : List Ev :=
  match rets with
  | [] => [Ev.cpuWait EGL_CONDITION_SATISFIED_KHR]
  | s :: rest =>
    if s = EGL_CONDITION_SATISFIED_KHR then [Ev.cpuWait s]
    else Ev.cpuWait s :: runCpuWait rest

/-- The `struct drm` as it stands when the loop body reaches the commit:
the out-fence fd was consumed by `fenceImportPhase` and
`kms_in_fence_fd` was overwritten with the fd exported from the GPU
fence. -/
def stepDrm2 (st : LoopState) (env : IterEnv) : Drm :=
  { (fenceImportPhase st.drm).2 with kms_in_fence_fd := env.dup_fd }

/-- Events of the loop body up to and including the GPU-fence export and
destroy (lines 195–225 of the source): the optional out-fence import and
GPU-side wait, `egl->draw`, GPU fence creation, `eglSwapBuffers`,
`eglDupNativeFenceFDANDROID` and `eglDestroySyncKHR`. -/
def stepEv2 (st : LoopState) (env : IterEnv) : List Ev :=
  (fenceImportPhase st.drm).1 ++ [Ev.draw st.i, Ev.createGpuFence,
    Ev.swapBuffers, Ev.exportGpuFence env.dup_fd, Ev.destroyGpuFence]

/-- Events of the `if (kms_fence)` CPU-wait block (lines 238–254): the
retried `eglClientWaitSyncKHR` calls and the `eglDestroySyncKHR` of the
kms fence, present only when an out-fence was pending at loop entry. -/
def stepWaitEv (st : LoopState) (env : IterEnv) : List Ev :=
  if st.drm.kms_out_fence_fd ≠ -1 then
    runCpuWait env.wait_rets ++ [Ev.destroyKmsFence]
  else []

/-- The `drm_atomic_commit` call of the loop body. -/
def stepCommit (st : LoopState) (env : IterEnv) : CommitResult :=
  drm_atomic_commit (stepDrm2 st env) env.commit env.fb_id st.flags

/-- The `if (bo) gbm_surface_release_buffer(...)` events after a
successful commit. -/
def releaseEv (st : LoopState) : List Ev :=
  match st.bo with | some b => [Ev.releaseBuffer b] | none => []

/-- One iteration of the `while (1)` loop of `atomic_run`.  Returns the
events of the iteration and `some` next state, or `none` when the loop
body executes `return -1` (lock failure, fb failure, or commit failure). -/
def atomic_step (st : LoopState) (env : IterEnv) : List Ev × Option LoopState :=
  if env.lock_ok = false then (stepEv2 st env ++ [Ev.lockFailed], none)
  else if env.fb_ok = false then (stepEv2 st env ++ [Ev.fbFailed], none)
  else if (stepCommit st env).ret ≠ 0 then
    (stepEv2 st env ++ stepWaitEv st env ++ (stepCommit st env).events, none)
  else
    (stepEv2 st env ++ stepWaitEv st env ++ (stepCommit st env).events ++
      releaseEv st,
     some ⟨(stepCommit st env).drm, some env.bo, st.i + 1,
       st.flags &&& CLEAR_ALLOW_MODESET⟩)

/-- Run the loop over a list of per-iteration environments, concatenating
the traces; stops early (with `none`) when an iteration exits the loop. -/
def atomic_run_trace (st : LoopState) :
    List IterEnv → List Ev × Option LoopState
  | [] => ([], some st)
  | e :: rest =>
    match atomic_step st e with
    | (tr, none) => (tr, none)
    | (tr, some st1) =>
      let r := atomic_run_trace st1 rest
      (tr ++ r.1, r.2)

/-- `struct drm` as `atomic_run` first sees it: `init_drm_atomic` callocs
the structure (so `kms_in_fence_fd` starts at `0`) and then sets
`kms_out_fence_fd = -1`. -/
def initDrm (tables : DrmTables) (connector_id crtc_id plane_id : Nat)
    (hdisplay vdisplay : Nat) : Drm :=
  ⟨tables, connector_id, crtc_id, plane_id, hdisplay, vdisplay, 0, -1⟩

/-- The loop state at the top of the first iteration of `atomic_run`:
`bo = NULL`, `i = 0`, and
`flags = DRM_MODE_ATOMIC_NONBLOCK | DRM_MODE_ATOMIC_ALLOW_MODESET`. -/
def initLoopState (drm : Drm) : LoopState :=
  ⟨drm, none, 0, DRM_MODE_ATOMIC_NONBLOCK ||| DRM_MODE_ATOMIC_ALLOW_MODESET⟩

/-- The flags of the `commitSubmit` events of a trace, in order: one entry
per transaction actually submitted to the display subsystem. -/
def commitFlagsOf (tr : List Ev) : List Nat :=
  tr.filterMap fun e => match e with
    | Ev.commitSubmit _ f _ => some f
    | _ => none

/-- Number of `eglClientWaitSyncKHR` invocations recorded in a trace. -/
def countCpuWait (tr : List Ev) : Nat :=
  tr.countP fun e => match e with | Ev.cpuWait _ => true | _ => false

/-- Number of `createGpuFence` events in a trace. -/
def countCreateGpu (tr : List Ev) : Nat :=
  tr.countP fun e => match e with | Ev.createGpuFence => true | _ => false

/-- Number of `destroyGpuFence` events in a trace. -/
def countDestroyGpu (tr : List Ev) : Nat :=
  tr.countP fun e => match e with | Ev.destroyGpuFence => true | _ => false

/-- Number of `createKmsFence` events in a trace. -/
def countCreateKms (tr : List Ev) : Nat :=
  tr.countP fun e => match e with | Ev.createKmsFence _ => true | _ => false

/-- Number of `destroyKmsFence` events in a trace. -/
def countDestroyKms (tr : List Ev) : Nat :=
  tr.countP fun e => match e with | Ev.destroyKmsFence => true | _ => false

/-- Whether a flags word carries `DRM_MODE_ATOMIC_ALLOW_MODESET`. -/
def carriesModeset (f : Nat) : Bool :=
  decide (f &&& DRM_MODE_ATOMIC_ALLOW_MODESET ≠ 0)

/-! Concrete fixtures used by the closed witness and counterexample
theorems: a fully populated set of property tables (`goodTables`), a
variant missing the plane property `SRC_X` (`noSrcXTables`), and a variant
whose connector table lacks `CRTC_ID` (`bugTables`). -/

/-- Property tables in which every name used by `drm_atomic_commit`
resolves. -/
def goodTables : DrmTables :=
  ⟨[("CRTC_ID", 20)],
   [("MODE_ID", 30), ("ACTIVE", 31), ("OUT_FENCE_PTR", 32)],
   [("FB_ID", 40), ("CRTC_ID", 41), ("SRC_X", 42), ("SRC_Y", 43),
    ("SRC_W", 44), ("SRC_H", 45), ("CRTC_X", 46), ("CRTC_Y", 47),
    ("CRTC_W", 48), ("CRTC_H", 49), ("IN_FENCE_FD", 50)]⟩

/-- A 1920×1080 `struct drm` with fully populated tables. -/
def goodDrm : Drm := initDrm goodTables 1 2 3 1920 1080

/-- Commit environment in which everything succeeds; the kernel returns
out-fence fd 9. -/
def okCommit : CommitEnv := ⟨true, 77, 0, 9⟩

/-- Iteration environment in which every external call succeeds and the
first CPU wait is already satisfied. -/
def okIter : IterEnv := ⟨5, true, 100, true, 200, [], okCommit⟩

/-- Iteration environment whose `drmModeAtomicCommit` fails with `-EINVAL`. -/
def failIter : IterEnv := { okIter with commit := { okCommit with commit_ret := -22 } }

/-- Iteration environment whose first `eglClientWaitSyncKHR` call returns
`EGL_FALSE` (0), so the `do … while` loop invokes it a second time. -/
def waitFailIter : IterEnv := { okIter with wait_rets := [0] }

/-- Iteration environment whose `gbm_surface_lock_front_buffer` fails. -/
def lockFailIter : IterEnv := { okIter with lock_ok := false }

/-- The loop state after a successful first iteration over `goodDrm`:
out-fence fd 9 pending, buffer 100 current, `ALLOW_MODESET` cleared. -/
def pendingState : LoopState :=
  ⟨{ goodDrm with kms_in_fence_fd := -1, kms_out_fence_fd := 9 }, some 100, 1,
    DRM_MODE_ATOMIC_NONBLOCK⟩

/-- Like `goodTables` but the plane table has no `SRC_X` entry. -/
def noSrcXTables : DrmTables :=
  ⟨[("CRTC_ID", 20)],
   [("MODE_ID", 30), ("ACTIVE", 31), ("OUT_FENCE_PTR", 32)],
   [("FB_ID", 40), ("CRTC_ID", 41), ("SRC_Y", 43),
    ("SRC_W", 44), ("SRC_H", 45), ("CRTC_X", 46), ("CRTC_Y", 47),
    ("CRTC_W", 48), ("CRTC_H", 49), ("IN_FENCE_FD", 50)]⟩

/-- A `struct drm` over `noSrcXTables` with fencing disabled
(`kms_in_fence_fd = -1`). -/
def cDrm : Drm :=
  { initDrm noSrcXTables 1 2 3 1920 1080 with kms_in_fence_fd := -1 }

/-- Tables in which `CRTC_ID` is absent from the connector table (and the
crtc and plane tables are empty). -/
def bugTables : DrmTables := ⟨[("DPMS", 2)], [], []⟩

/-- A `struct drm` over `bugTables`. -/
def bugDrm : Drm := initDrm bugTables 1 2 3 1920 1080

/-- Tables whose crtc table lacks `MODE_ID` (modeset resolution fails). -/
def noModeIdTables : DrmTables := ⟨[("CRTC_ID", 20)], [("ACTIVE", 31)], []⟩

/-- A `struct drm` over `noModeIdTables`. -/
def noModeIdDrm : Drm := initDrm noModeIdTables 1 2 3 1920 1080

/-! ### Helper lemmas -/

theorem commitFlagsOf_append (a b : List Ev) :
    commitFlagsOf (a ++ b) = commitFlagsOf a ++ commitFlagsOf b := by
  simp [commitFlagsOf, List.filterMap_append]

theorem commitFlagsOf_runCpuWait (l : List Int) :
    commitFlagsOf (runCpuWait l) = [] := by
  induction l with
  | nil => simp [runCpuWait, commitFlagsOf]
  | cons s rest ih =>
    by_cases h : s = EGL_CONDITION_SATISFIED_KHR
    · simp [runCpuWait, h, commitFlagsOf]
    · simpa [runCpuWait, h, commitFlagsOf] using ih

/-- Every event produced by the CPU-wait loop is a `cpuWait`. -/
theorem runCpuWait_only_cpuWait (l : List Int) (e : Ev) (he : e ∈ runCpuWait l) :
    ∃ s, e = Ev.cpuWait s := by
  induction l with
  | nil => simp [runCpuWait] at he; exact ⟨_, he⟩
  | cons s rest ih =>
    by_cases h : s = EGL_CONDITION_SATISFIED_KHR
    · simp [runCpuWait, h] at he; exact ⟨_, he⟩
    · simp [runCpuWait, h] at he
      rcases he with he | he
      · exact ⟨_, he⟩
      · exact ih he

/-- `drm_atomic_commit` is either abandoned before submission (return
`-1`, no events, state untouched) or runs the submission tail on the
request accumulated by the modeset block. -/
theorem commit_cases (drm : Drm) (env : CommitEnv) (fb_id flags : Nat) :
    drm_atomic_commit drm env fb_id flags = ⟨-1, drm, []⟩ ∨
    ∃ req0, drm_atomic_commit drm env fb_id flags =
      commitPhase drm env fb_id flags req0 := by
  unfold drm_atomic_commit
  split
  · exact Or.inl rfl
  · exact Or.inr ⟨_, rfl⟩

theorem commitPhase_ret (drm : Drm) (env : CommitEnv) (fb_id flags : Nat)
    (req0 : List Triple) :
    (commitPhase drm env fb_id flags req0).ret = env.commit_ret := by
  unfold commitPhase
  split_ifs <;> simp_all

theorem commitPhase_flags (drm : Drm) (env : CommitEnv) (fb_id flags : Nat)
    (req0 : List Triple) :
    commitFlagsOf (commitPhase drm env fb_id flags req0).events = [flags] := by
  unfold commitPhase
  split_ifs <;> simp [commitFlagsOf]

/-- A commit that returns `0` was submitted: exactly one `commitSubmit`
event, carrying the `flags` argument. -/
theorem commit_ret_zero_flags (drm : Drm) (env : CommitEnv) (fb_id flags : Nat)
    (h : (drm_atomic_commit drm env fb_id flags).ret = 0) :
    commitFlagsOf (drm_atomic_commit drm env fb_id flags).events = [flags] := by
  rcases commit_cases drm env fb_id flags with hc | ⟨req0, hc⟩
  · rw [hc] at h; simp at h
  · rw [hc]; exact commitPhase_flags drm env fb_id flags req0

theorem commitFlagsOf_fenceImport (drm : Drm) :
    commitFlagsOf (fenceImportPhase drm).1 = [] := by
  unfold fenceImportPhase
  split_ifs <;> simp [commitFlagsOf]

theorem commitFlagsOf_stepEv2 (st : LoopState) (env : IterEnv) :
    commitFlagsOf (stepEv2 st env) = [] := by
  unfold stepEv2
  rw [commitFlagsOf_append, commitFlagsOf_fenceImport]
  simp [commitFlagsOf]

theorem commitFlagsOf_stepWaitEv (st : LoopState) (env : IterEnv) :
    commitFlagsOf (stepWaitEv st env) = [] := by
  unfold stepWaitEv
  split_ifs
  · rw [commitFlagsOf_append, commitFlagsOf_runCpuWait]
    simp [commitFlagsOf]
  · simp [commitFlagsOf]

theorem commitFlagsOf_releaseEv (st : LoopState) :
    commitFlagsOf (releaseEv st) = [] := by
  unfold releaseEv
  rcases st.bo with _ | b <;> simp [commitFlagsOf]

theorem stepCommit_flags (st : LoopState) (env : IterEnv)
    (h : (stepCommit st env).ret = 0) :
    commitFlagsOf (stepCommit st env).events = [st.flags] := by
  unfold stepCommit at *
  exact commit_ret_zero_flags _ _ _ _ h

/-- An iteration that continues the loop submitted exactly one transaction,
with the entry flags, and the next state clears `ALLOW_MODESET`. -/
theorem atomic_step_success (st : LoopState) (env : IterEnv) (st1 : LoopState)
    (h : (atomic_step st env).2 = some st1) :
    commitFlagsOf (atomic_step st env).1 = [st.flags] ∧
    st1.flags = st.flags &&& CLEAR_ALLOW_MODESET := by
  unfold atomic_step at h ⊢
  split_ifs at h ⊢ with h1 h2 h3
  refine ⟨?_, ?_⟩
  · show commitFlagsOf (stepEv2 st env ++ stepWaitEv st env ++
      (stepCommit st env).events ++ releaseEv st) = [st.flags]
    simp [commitFlagsOf_append, commitFlagsOf_stepEv2, commitFlagsOf_stepWaitEv,
      commitFlagsOf_releaseEv, stepCommit_flags st env (not_not.mp h3)]
  · simp only [Option.some.injEq] at h
    rw [← h]

/-- Once `ALLOW_MODESET` is cleared (flags = `NONBLOCK`), every further
completed run submits all its transactions with plain `NONBLOCK` flags. -/
theorem run_flags_cleared (envs : List IterEnv) :
    ∀ st : LoopState, st.flags = DRM_MODE_ATOMIC_NONBLOCK →
    (atomic_run_trace st envs).2.isSome = true →
    commitFlagsOf (atomic_run_trace st envs).1 =
      List.replicate envs.length DRM_MODE_ATOMIC_NONBLOCK := by
  induction envs with
  | nil => intro st _ _; simp [atomic_run_trace, commitFlagsOf]
  | cons e rest ih =>
    intro st hfl hsome
    rcases hstep : atomic_step st e with ⟨tr, o⟩
    rcases o with _ | st1
    · rw [atomic_run_trace, hstep] at hsome
      simp at hsome
    · have hsucc := atomic_step_success st e st1
        (by rw [hstep])
      rw [hstep] at hsucc
      rw [atomic_run_trace, hstep] at hsome ⊢
      simp only at hsome ⊢
      rw [commitFlagsOf_append, hsucc.1, hfl]
      rw [ih st1 (by rw [hsucc.2, hfl]; decide) hsome]
      simp [List.replicate_succ]

/-- C3: across any completed run of N ≥ 1 frames, the submitted
transactions carry flags `NONBLOCK|ALLOW_MODESET` on frame 0 and plain
`NONBLOCK` on the remaining N−1 frames, so exactly one submitted
transaction carries `ALLOW_MODESET`, namely that of frame 0. -/
theorem modeset_flag_exactly_first (drm : Drm) (envs : List IterEnv)
    (hne : envs ≠ [])
    (hrun : ((atomic_run_trace (initLoopState drm) envs).2).isSome = true) :
    commitFlagsOf (atomic_run_trace (initLoopState drm) envs).1 =
      (DRM_MODE_ATOMIC_NONBLOCK ||| DRM_MODE_ATOMIC_ALLOW_MODESET) ::
        List.replicate (envs.length - 1) DRM_MODE_ATOMIC_NONBLOCK ∧
    (commitFlagsOf (atomic_run_trace (initLoopState drm) envs).1).countP
      carriesModeset = 1 := by
  rcases envs with _ | ⟨e, rest⟩
  · exact absurd rfl hne
  · rcases hstep : atomic_step (initLoopState drm) e with ⟨tr, o⟩
    rcases o with _ | st1
    · rw [atomic_run_trace, hstep] at hrun
      simp at hrun
    · have hsucc := atomic_step_success (initLoopState drm) e st1 (by rw [hstep])
      rw [hstep] at hsucc
      have hflags : (initLoopState drm).flags =
          DRM_MODE_ATOMIC_NONBLOCK ||| DRM_MODE_ATOMIC_ALLOW_MODESET := rfl
      rw [atomic_run_trace, hstep] at hrun ⊢
      simp only at hrun ⊢
      rw [commitFlagsOf_append, hsucc.1, hflags,
        run_flags_cleared rest st1 (by rw [hsucc.2, hflags]; decide) hrun]
      refine ⟨by simp, ?_⟩
      have hz : List.countP carriesModeset
          (List.replicate rest.length DRM_MODE_ATOMIC_NONBLOCK) = 0 := by
        rw [List.countP_eq_zero]
        intro a ha
        rw [List.mem_replicate] at ha
        rw [ha.2]
        decide
      rw [List.countP_append, hz]
      decide

/-- Witness for C3: a completed 2-frame run over fully resolving tables. -/
theorem modeset_flag_exactly_first_witness :
    commitFlagsOf (atomic_run_trace (initLoopState goodDrm) [okIter, okIter]).1 =
      (DRM_MODE_ATOMIC_NONBLOCK ||| DRM_MODE_ATOMIC_ALLOW_MODESET) ::
        List.replicate ([okIter, okIter].length - 1) DRM_MODE_ATOMIC_NONBLOCK ∧
    (commitFlagsOf
        (atomic_run_trace (initLoopState goodDrm) [okIter, okIter]).1).countP
      carriesModeset = 1 :=
  modeset_flag_exactly_first goodDrm [okIter, okIter] (by decide) (by decide)

/-- The events emitted by `drm_atomic_commit` take one of three shapes:
nothing (abandoned before submission), a lone submission, or a submission
followed by the in-fence close. -/
theorem commit_events_forms (drm : Drm) (cenv : CommitEnv) (fb_id flags : Nat) :
    (drm_atomic_commit drm cenv fb_id flags).events = [] ∨
    (∃ req r, (drm_atomic_commit drm cenv fb_id flags).events =
      [Ev.commitSubmit req flags r]) ∨
    (∃ req fd, (drm_atomic_commit drm cenv fb_id flags).events =
      [Ev.commitSubmit req flags 0, Ev.closeInFence fd]) := by
  rcases commit_cases drm cenv fb_id flags with hc | ⟨req0, hc⟩ <;> rw [hc]
  · left; rfl
  · unfold commitPhase
    split_ifs <;>
      first
        | (right; left; exact ⟨_, _, rfl⟩)
        | (right; right; exact ⟨_, _, rfl⟩)

theorem releaseBuffer_not_mem_stepEv2 (st : LoopState) (env : IterEnv) (b : Nat) :
    Ev.releaseBuffer b ∉ stepEv2 st env := by
  unfold stepEv2 fenceImportPhase
  split_ifs <;> simp

theorem releaseBuffer_not_mem_stepWaitEv (st : LoopState) (env : IterEnv) (b : Nat) :
    Ev.releaseBuffer b ∉ stepWaitEv st env := by
  unfold stepWaitEv
  split_ifs
  · intro hmem
    rw [List.mem_append] at hmem
    rcases hmem with hm | hm
    · rcases runCpuWait_only_cpuWait _ _ hm with ⟨s, hs⟩
      simp at hs
    · simp at hm
  · simp

theorem releaseBuffer_not_mem_commit (st : LoopState) (env : IterEnv) (b : Nat) :
    Ev.releaseBuffer b ∉ (stepCommit st env).events := by
  unfold stepCommit
  rcases commit_events_forms (stepDrm2 st env) env.commit env.fb_id st.flags with
    h | ⟨req, r, h⟩ | ⟨req, fd, h⟩ <;> rw [h] <;> simp

/-- C4: a buffer is released back to the GBM queue only after the commit
publishing its successor returned success.  (i) When the iteration exits
the loop (lock, fb or commit failure) no buffer at all is released and the
run halts there, discarding the remaining iterations — in particular the
prospective buffer `env.bo` of the iteration is never released.  (ii) When the
iteration continues, the commit returned 0, the only release events are
the final `releaseEv st` (the buffer of the previous iteration), placed
after the commit events, and `env.bo` becomes the new current buffer. -/
theorem release_only_after_commit_success (st : LoopState) (env : IterEnv) :
    ((atomic_step st env).2 = none →
      (∀ b, Ev.releaseBuffer b ∉ (atomic_step st env).1) ∧
      (∀ rest, atomic_run_trace st (env :: rest) = ((atomic_step st env).1, none)))
    ∧ (∀ st1, (atomic_step st env).2 = some st1 →
      (stepCommit st env).ret = 0 ∧
      (atomic_step st env).1 = stepEv2 st env ++ stepWaitEv st env ++
        (stepCommit st env).events ++ releaseEv st ∧
      (∀ b, Ev.releaseBuffer b ∈ (atomic_step st env).1 → st.bo = some b) ∧
      st1.bo = some env.bo) := by
  constructor
  · intro hnone
    constructor
    · intro b
      revert hnone
      unfold atomic_step
      split_ifs with h1 h2 h3 <;> intro hnone <;> intro hmem <;>
        rw [List.mem_append] at hmem
      · rcases hmem with hm | hm
        · exact releaseBuffer_not_mem_stepEv2 st env b hm
        · simp at hm
      · rcases hmem with hm | hm
        · exact releaseBuffer_not_mem_stepEv2 st env b hm
        · simp at hm
      · rcases hmem with hm | hm
        · rw [List.mem_append] at hm
          rcases hm with hm | hm
          · exact releaseBuffer_not_mem_stepEv2 st env b hm
          · exact releaseBuffer_not_mem_stepWaitEv st env b hm
        · exact releaseBuffer_not_mem_commit st env b hm
      · simp at hnone
    · intro rest
      rw [atomic_run_trace]
      rcases hstep : atomic_step st env with ⟨tr, o⟩
      rw [hstep] at hnone
      simp only at hnone
      rw [hnone]
  · intro st1 hsome
    revert hsome
    unfold atomic_step
    split_ifs with h1 h2 h3 <;> intro hsome
    · simp at hsome
    · simp at hsome
    · simp at hsome
    · refine ⟨not_not.mp h3, rfl, ?_, ?_⟩
      · intro b hmem
        rw [List.mem_append] at hmem
        rcases hmem with hm | hm
        · rw [List.mem_append] at hm
          rcases hm with hm | hm
          · rw [List.mem_append] at hm
            rcases hm with hm | hm
            · exact absurd hm (releaseBuffer_not_mem_stepEv2 st env b)
            · exact absurd hm (releaseBuffer_not_mem_stepWaitEv st env b)
          · exact absurd hm (releaseBuffer_not_mem_commit st env b)
        · revert hm
          unfold releaseEv
          rcases hbo : st.bo with _ | b0
          · simp
          · intro hm
            simp at hm
            rw [hm]
      · simp only [Option.some.injEq] at hsome
        rw [← hsome]

theorem countCpuWait_append (a b : List Ev) :
    countCpuWait (a ++ b) = countCpuWait a + countCpuWait b := by
  unfold countCpuWait
  exact List.countP_append _ _ _

theorem countCpuWait_eq_zero (l : List Ev) (h : ∀ s, Ev.cpuWait s ∉ l) :
    countCpuWait l = 0 := by
  unfold countCpuWait
  rw [List.countP_eq_zero]
  intro a ha
  cases a
  case cpuWait s => exact absurd ha (h s)
  all_goals simp

theorem cpuWait_not_mem_stepEv2 (st : LoopState) (env : IterEnv) (s : Int) :
    Ev.cpuWait s ∉ stepEv2 st env := by
  unfold stepEv2 fenceImportPhase
  split_ifs <;> simp

theorem cpuWait_not_mem_commit (st : LoopState) (env : IterEnv) (s : Int) :
    Ev.cpuWait s ∉ (stepCommit st env).events := by
  unfold stepCommit
  rcases commit_events_forms (stepDrm2 st env) env.commit env.fb_id st.flags with
    h | ⟨req, r, h⟩ | ⟨req, fd, h⟩ <;> rw [h] <;> simp

theorem cpuWait_not_mem_releaseEv (st : LoopState) (s : Int) :
    Ev.cpuWait s ∉ releaseEv st := by
  unfold releaseEv
  rcases st.bo with _ | b <;> simp

theorem countCpuWait_runCpuWait (l : List Int) :
    countCpuWait (runCpuWait l) = (runCpuWait l).length := by
  induction l with
  | nil => simp [runCpuWait, countCpuWait]
  | cons s rest ih =>
    by_cases h : s = EGL_CONDITION_SATISFIED_KHR
    · simp [runCpuWait, h, countCpuWait]
    · rw [runCpuWait, if_neg h]
      simp only [countCpuWait, List.countP_cons, List.length_cons] at ih ⊢
      simp [ih]

theorem runCpuWait_length_pos (l : List Int) : 1 ≤ (runCpuWait l).length := by
  cases l with
  | nil => simp [runCpuWait]
  | cons s rest =>
    rw [runCpuWait]
    split_ifs <;> simp

theorem countCpuWait_stepEv2 (st : LoopState) (env : IterEnv) :
    countCpuWait (stepEv2 st env) = 0 :=
  countCpuWait_eq_zero _ (fun s => cpuWait_not_mem_stepEv2 st env s)

theorem countCpuWait_commit (st : LoopState) (env : IterEnv) :
    countCpuWait (stepCommit st env).events = 0 :=
  countCpuWait_eq_zero _ (fun s => cpuWait_not_mem_commit st env s)

theorem countCpuWait_releaseEv (st : LoopState) :
    countCpuWait (releaseEv st) = 0 :=
  countCpuWait_eq_zero _ (fun s => cpuWait_not_mem_releaseEv st s)

theorem stepWaitEv_of_none (st : LoopState) (env : IterEnv)
    (h : st.drm.kms_out_fence_fd = -1) : stepWaitEv st env = [] := by
  unfold stepWaitEv
  rw [if_neg]
  simp [h]

theorem stepWaitEv_of_pending (st : LoopState) (env : IterEnv)
    (h : st.drm.kms_out_fence_fd ≠ -1) :
    stepWaitEv st env = runCpuWait env.wait_rets ++ [Ev.destroyKmsFence] := by
  unfold stepWaitEv
  rw [if_pos h]

/-- C5 (amended): the CPU-blocking wait is never invoked on iteration 0
(the initial state has no pending out-fence) and never in an iteration
without a pending out-fence handle; when a handle is pending and buffer
acquisition succeeds, the wait is invoked once per `eglClientWaitSyncKHR`
status the do-while loop observes — at least once, and exactly once when
the first status is already `EGL_CONDITION_SATISFIED_KHR` — so it may run
more than once when a wait call returns an unsatisfied status. -/
theorem cpu_wait_guarded (st : LoopState) (env : IterEnv) :
    (∀ (t : DrmTables) (c cr p hd vd : Nat),
      (initLoopState (initDrm t c cr p hd vd)).drm.kms_out_fence_fd = -1)
    ∧ (st.drm.kms_out_fence_fd = -1 → countCpuWait (atomic_step st env).1 = 0)
    ∧ (st.drm.kms_out_fence_fd ≠ -1 → env.lock_ok = true → env.fb_ok = true →
        countCpuWait (atomic_step st env).1 = (runCpuWait env.wait_rets).length ∧
        1 ≤ countCpuWait (atomic_step st env).1 ∧
        (env.wait_rets = [] → countCpuWait (atomic_step st env).1 = 1)) := by
  refine ⟨fun t c cr p hd vd => rfl, ?_, ?_⟩
  · intro hout
    unfold atomic_step
    split_ifs with h1 h2 h3
    · rw [countCpuWait_append, countCpuWait_stepEv2]
      rfl
    · rw [countCpuWait_append, countCpuWait_stepEv2]
      rfl
    · rw [countCpuWait_append, countCpuWait_append, countCpuWait_stepEv2,
        stepWaitEv_of_none st env hout, countCpuWait_commit]
      rfl
    · rw [countCpuWait_append, countCpuWait_append, countCpuWait_append,
        countCpuWait_stepEv2, stepWaitEv_of_none st env hout,
        countCpuWait_commit, countCpuWait_releaseEv]
      rfl
  · intro hout hlock hfb
    have hwait : countCpuWait (stepWaitEv st env) =
        (runCpuWait env.wait_rets).length := by
      rw [stepWaitEv_of_pending st env hout, countCpuWait_append,
        countCpuWait_runCpuWait,
        show countCpuWait [Ev.destroyKmsFence] = 0 from rfl]
      omega
    have hcount : countCpuWait (atomic_step st env).1 =
        (runCpuWait env.wait_rets).length := by
      unfold atomic_step
      rw [if_neg (by simp [hlock]), if_neg (by simp [hfb])]
      split_ifs with h3
      · rw [countCpuWait_append, countCpuWait_append, countCpuWait_stepEv2,
          hwait, countCpuWait_commit]
        omega
      · rw [countCpuWait_append, countCpuWait_append, countCpuWait_append,
          countCpuWait_stepEv2, hwait, countCpuWait_commit,
          countCpuWait_releaseEv]
        omega
    refine ⟨hcount, ?_, ?_⟩
    · rw [hcount]
      exact runCpuWait_length_pos _
    · intro hnil
      rw [hcount, hnil]
      simp [runCpuWait]

/-- C5 counterexample: in the 2-iteration run `[okIter, waitFailIter]`
the whole trace holds two CPU-wait invocations while iteration 0 holds
none, so iteration 1 invoked the CPU-blocking wait twice — the claim
"invoked at most once per iteration" fails when a wait call reports an
unsatisfied status. -/
theorem cpu_wait_invoked_twice :
    countCpuWait
      (atomic_run_trace (initLoopState goodDrm) [okIter, waitFailIter]).1 = 2
    ∧ countCpuWait (atomic_step (initLoopState goodDrm) okIter).1 = 0 := by
  constructor <;> decide

/-- Witness for the C5 theorem at concrete inputs. -/
theorem cpu_wait_guarded_witness :
    countCpuWait (atomic_step (initLoopState goodDrm) okIter).1 = 0 ∧
    1 ≤ countCpuWait (atomic_step pendingState waitFailIter).1 :=
  ⟨(cpu_wait_guarded (initLoopState goodDrm) okIter).2.1 (by decide),
   ((cpu_wait_guarded pendingState waitFailIter).2.2 (by decide) (by decide)
      (by decide)).2.1⟩

/-- Witness for the C4 theorem: the commit of the failing iteration returns
`-EINVAL`, the loop halts, and the prospective buffer 100 is not released. -/
theorem release_only_after_commit_success_witness :
    Ev.releaseBuffer 100 ∉ (atomic_step (initLoopState goodDrm) failIter).1 :=
  ((release_only_after_commit_success (initLoopState goodDrm) failIter).1
    (by decide)).1 100

theorem stepCommit_events_forms (st : LoopState) (env : IterEnv) :
    (stepCommit st env).events = [] ∨
    (∃ req r, (stepCommit st env).events = [Ev.commitSubmit req st.flags r]) ∨
    (∃ req fd, (stepCommit st env).events =
      [Ev.commitSubmit req st.flags 0, Ev.closeInFence fd]) := by
  unfold stepCommit
  exact commit_events_forms (stepDrm2 st env) env.commit env.fb_id st.flags

theorem countP_runCpuWait_zero (l : List Int) (p : Ev → Bool)
    (hp : ∀ s, p (Ev.cpuWait s) = false) : (runCpuWait l).countP p = 0 := by
  rw [List.countP_eq_zero]
  intro a ha
  rcases runCpuWait_only_cpuWait l a ha with ⟨s, hs⟩
  rw [hs, hp]
  simp

theorem countCreateGpu_stepEv2 (st : LoopState) (env : IterEnv) :
    countCreateGpu (stepEv2 st env) = 1 := by
  unfold countCreateGpu stepEv2 fenceImportPhase
  split_ifs <;> rfl

theorem countDestroyGpu_stepEv2 (st : LoopState) (env : IterEnv) :
    countDestroyGpu (stepEv2 st env) = 1 := by
  unfold countDestroyGpu stepEv2 fenceImportPhase
  split_ifs <;> rfl

theorem countCreateKms_stepEv2_pending (st : LoopState) (env : IterEnv)
    (h : st.drm.kms_out_fence_fd ≠ -1) :
    countCreateKms (stepEv2 st env) = 1 := by
  unfold countCreateKms stepEv2 fenceImportPhase
  rw [if_pos h]
  rfl

theorem countCreateKms_stepEv2_none (st : LoopState) (env : IterEnv)
    (h : st.drm.kms_out_fence_fd = -1) :
    countCreateKms (stepEv2 st env) = 0 := by
  unfold countCreateKms stepEv2 fenceImportPhase
  rw [if_neg (by simp [h])]
  rfl

theorem countDestroyKms_stepEv2 (st : LoopState) (env : IterEnv) :
    countDestroyKms (stepEv2 st env) = 0 := by
  unfold countDestroyKms stepEv2 fenceImportPhase
  split_ifs <;> rfl

theorem countCreateGpu_stepWaitEv (st : LoopState) (env : IterEnv) :
    countCreateGpu (stepWaitEv st env) = 0 := by
  unfold countCreateGpu stepWaitEv
  split_ifs
  · rw [List.countP_append, countP_runCpuWait_zero _ _ (fun s => rfl)]
    rfl
  · rfl

theorem countDestroyGpu_stepWaitEv (st : LoopState) (env : IterEnv) :
    countDestroyGpu (stepWaitEv st env) = 0 := by
  unfold countDestroyGpu stepWaitEv
  split_ifs
  · rw [List.countP_append, countP_runCpuWait_zero _ _ (fun s => rfl)]
    rfl
  · rfl

theorem countCreateKms_stepWaitEv (st : LoopState) (env : IterEnv) :
    countCreateKms (stepWaitEv st env) = 0 := by
  unfold countCreateKms stepWaitEv
  split_ifs
  · rw [List.countP_append, countP_runCpuWait_zero _ _ (fun s => rfl)]
    rfl
  · rfl

theorem countDestroyKms_stepWaitEv_pending (st : LoopState) (env : IterEnv)
    (h : st.drm.kms_out_fence_fd ≠ -1) :
    countDestroyKms (stepWaitEv st env) = 1 := by
  unfold countDestroyKms stepWaitEv
  rw [if_pos h, List.countP_append, countP_runCpuWait_zero _ _ (fun s => rfl)]
  rfl

theorem countDestroyKms_stepWaitEv_none (st : LoopState) (env : IterEnv)
    (h : st.drm.kms_out_fence_fd = -1) :
    countDestroyKms (stepWaitEv st env) = 0 := by
  unfold countDestroyKms stepWaitEv
  rw [if_neg (by simp [h])]
  rfl

theorem countCreateGpu_commit (st : LoopState) (env : IterEnv) :
    countCreateGpu (stepCommit st env).events = 0 := by
  unfold countCreateGpu
  rcases stepCommit_events_forms st env with h | ⟨req, r, h⟩ | ⟨req, fd, h⟩ <;>
    rw [h] <;> rfl

theorem countDestroyGpu_commit (st : LoopState) (env : IterEnv) :
    countDestroyGpu (stepCommit st env).events = 0 := by
  unfold countDestroyGpu
  rcases stepCommit_events_forms st env with h | ⟨req, r, h⟩ | ⟨req, fd, h⟩ <;>
    rw [h] <;> rfl

theorem countCreateKms_commit (st : LoopState) (env : IterEnv) :
    countCreateKms (stepCommit st env).events = 0 := by
  unfold countCreateKms
  rcases stepCommit_events_forms st env with h | ⟨req, r, h⟩ | ⟨req, fd, h⟩ <;>
    rw [h] <;> rfl

theorem countDestroyKms_commit (st : LoopState) (env : IterEnv) :
    countDestroyKms (stepCommit st env).events = 0 := by
  unfold countDestroyKms
  rcases stepCommit_events_forms st env with h | ⟨req, r, h⟩ | ⟨req, fd, h⟩ <;>
    rw [h] <;> rfl

theorem countCreateGpu_releaseEv (st : LoopState) :
    countCreateGpu (releaseEv st) = 0 := by
  unfold countCreateGpu releaseEv
  rcases st.bo with _ | b <;> rfl

theorem countDestroyGpu_releaseEv (st : LoopState) :
    countDestroyGpu (releaseEv st) = 0 := by
  unfold countDestroyGpu releaseEv
  rcases st.bo with _ | b <;> rfl

theorem countCreateKms_releaseEv (st : LoopState) :
    countCreateKms (releaseEv st) = 0 := by
  unfold countCreateKms releaseEv
  rcases st.bo with _ | b <;> rfl

theorem countDestroyKms_releaseEv (st : LoopState) :
    countDestroyKms (releaseEv st) = 0 := by
  unfold countDestroyKms releaseEv
  rcases st.bo with _ | b <;> rfl

theorem countCreateGpu_append (a b : List Ev) :
    countCreateGpu (a ++ b) = countCreateGpu a + countCreateGpu b :=
  List.countP_append _ _ _

theorem countDestroyGpu_append (a b : List Ev) :
    countDestroyGpu (a ++ b) = countDestroyGpu a + countDestroyGpu b :=
  List.countP_append _ _ _

theorem countCreateKms_append (a b : List Ev) :
    countCreateKms (a ++ b) = countCreateKms a + countCreateKms b :=
  List.countP_append _ _ _

theorem countDestroyKms_append (a b : List Ev) :
    countDestroyKms (a ++ b) = countDestroyKms a + countDestroyKms b :=
  List.countP_append _ _ _

/-- C9 (amended): in every iteration the GPU-timeline fence is created and
destroyed exactly once, on every path (the destroy directly follows the
fd export).  The imported display fence is created and destroyed exactly
once in iterations that have a pending out-fence and reach the commit;
without a pending out-fence neither event occurs; but when buffer
acquisition fails (lock or fb failure) with a pending out-fence, the imported
fence is created and never destroyed on that fatal exit. -/
theorem fence_destroy_discipline (st : LoopState) (env : IterEnv) :
    (countCreateGpu (atomic_step st env).1 = 1 ∧
     countDestroyGpu (atomic_step st env).1 = 1)
    ∧ (st.drm.kms_out_fence_fd = -1 →
        countCreateKms (atomic_step st env).1 = 0 ∧
        countDestroyKms (atomic_step st env).1 = 0)
    ∧ (st.drm.kms_out_fence_fd ≠ -1 → env.lock_ok = true → env.fb_ok = true →
        countCreateKms (atomic_step st env).1 = 1 ∧
        countDestroyKms (atomic_step st env).1 = 1)
    ∧ (st.drm.kms_out_fence_fd ≠ -1 →
        (env.lock_ok = false ∨ env.fb_ok = false) →
        countCreateKms (atomic_step st env).1 = 1 ∧
        countDestroyKms (atomic_step st env).1 = 0) := by
  refine ⟨?_, ?_, ?_, ?_⟩
  · unfold atomic_step
    split_ifs with h1 h2 h3
    · refine ⟨?_, ?_⟩
      · rw [countCreateGpu_append, countCreateGpu_stepEv2]
        decide
      · rw [countDestroyGpu_append, countDestroyGpu_stepEv2]
        decide
    · refine ⟨?_, ?_⟩
      · rw [countCreateGpu_append, countCreateGpu_stepEv2]
        decide
      · rw [countDestroyGpu_append, countDestroyGpu_stepEv2]
        decide
    · refine ⟨?_, ?_⟩
      · rw [countCreateGpu_append, countCreateGpu_append, countCreateGpu_stepEv2,
          countCreateGpu_stepWaitEv, countCreateGpu_commit]
      · rw [countDestroyGpu_append, countDestroyGpu_append, countDestroyGpu_stepEv2,
          countDestroyGpu_stepWaitEv, countDestroyGpu_commit]
    · refine ⟨?_, ?_⟩
      · rw [countCreateGpu_append, countCreateGpu_append, countCreateGpu_append,
          countCreateGpu_stepEv2, countCreateGpu_stepWaitEv, countCreateGpu_commit,
          countCreateGpu_releaseEv]
      · rw [countDestroyGpu_append, countDestroyGpu_append, countDestroyGpu_append,
          countDestroyGpu_stepEv2, countDestroyGpu_stepWaitEv, countDestroyGpu_commit,
          countDestroyGpu_releaseEv]
  · intro hout
    unfold atomic_step
    split_ifs with h1 h2 h3
    · refine ⟨?_, ?_⟩
      · rw [countCreateKms_append, countCreateKms_stepEv2_none st env hout]
        decide
      · rw [countDestroyKms_append, countDestroyKms_stepEv2]
        decide
    · refine ⟨?_, ?_⟩
      · rw [countCreateKms_append, countCreateKms_stepEv2_none st env hout]
        decide
      · rw [countDestroyKms_append, countDestroyKms_stepEv2]
        decide
    · refine ⟨?_, ?_⟩
      · rw [countCreateKms_append, countCreateKms_append,
          countCreateKms_stepEv2_none st env hout, countCreateKms_stepWaitEv,
          countCreateKms_commit]
      · rw [countDestroyKms_append, countDestroyKms_append, countDestroyKms_stepEv2,
          countDestroyKms_stepWaitEv_none st env hout, countDestroyKms_commit]
    · refine ⟨?_, ?_⟩
      · rw [countCreateKms_append, countCreateKms_append, countCreateKms_append,
          countCreateKms_stepEv2_none st env hout, countCreateKms_stepWaitEv,
          countCreateKms_commit, countCreateKms_releaseEv]
      · rw [countDestroyKms_append, countDestroyKms_append, countDestroyKms_append,
          countDestroyKms_stepEv2, countDestroyKms_stepWaitEv_none st env hout,
          countDestroyKms_commit, countDestroyKms_releaseEv]
  · intro hout hlock hfb
    unfold atomic_step
    rw [if_neg (by simp [hlock]), if_neg (by simp [hfb])]
    split_ifs with h3
    · refine ⟨?_, ?_⟩
      · rw [countCreateKms_append, countCreateKms_append,
          countCreateKms_stepEv2_pending st env hout, countCreateKms_stepWaitEv,
          countCreateKms_commit]
      · rw [countDestroyKms_append, countDestroyKms_append, countDestroyKms_stepEv2,
          countDestroyKms_stepWaitEv_pending st env hout, countDestroyKms_commit]
    · refine ⟨?_, ?_⟩
      · rw [countCreateKms_append, countCreateKms_append, countCreateKms_append,
          countCreateKms_stepEv2_pending st env hout, countCreateKms_stepWaitEv,
          countCreateKms_commit, countCreateKms_releaseEv]
      · rw [countDestroyKms_append, countDestroyKms_append, countDestroyKms_append,
          countDestroyKms_stepEv2, countDestroyKms_stepWaitEv_pending st env hout,
          countDestroyKms_commit, countDestroyKms_releaseEv]
  · intro hout hfail
    unfold atomic_step
    by_cases hl : env.lock_ok = false
    · rw [if_pos hl]
      refine ⟨?_, ?_⟩
      · rw [countCreateKms_append, countCreateKms_stepEv2_pending st env hout]
        decide
      · rw [countDestroyKms_append, countDestroyKms_stepEv2]
        decide
    · have hf : env.fb_ok = false := by
        rcases hfail with hfail | hfail
        · exact absurd hfail hl
        · exact hfail
      rw [if_neg hl, if_pos hf]
      refine ⟨?_, ?_⟩
      · rw [countCreateKms_append, countCreateKms_stepEv2_pending st env hout]
        decide
      · rw [countDestroyKms_append, countDestroyKms_stepEv2]
        decide

/-- C9 counterexample: in the run `[okIter, lockFailIter]`, iteration 1
enters with a pending out-fence, imports it, and then exits fatally on the
buffer lock failure: the imported display fence is created once but never destroyed, so
fences are not destroyed exactly once on every path. -/
theorem kms_fence_leak_on_lock_failure :
    countCreateKms
      (atomic_run_trace (initLoopState goodDrm) [okIter, lockFailIter]).1 = 1
    ∧ countDestroyKms
      (atomic_run_trace (initLoopState goodDrm) [okIter, lockFailIter]).1 = 0
    ∧ (atomic_run_trace (initLoopState goodDrm) [okIter, lockFailIter]).2
        = none := by
  refine ⟨?_, ?_, ?_⟩ <;> decide

/-- Witness for the C9 theorem at concrete inputs. -/
theorem fence_destroy_discipline_witness :
    countCreateGpu (atomic_step (initLoopState goodDrm) okIter).1 = 1 ∧
    countCreateKms (atomic_step pendingState okIter).1 = 1 ∧
    countDestroyKms (atomic_step pendingState okIter).1 = 1 :=
  ⟨(fence_destroy_discipline (initLoopState goodDrm) okIter).1.1,
   ((fence_destroy_discipline pendingState okIter).2.2.1 (by decide) (by decide)
      (by decide)).1,
   ((fence_destroy_discipline pendingState okIter).2.2.1 (by decide) (by decide)
      (by decide)).2⟩

/-- Every iteration trace starts with the events of lines 195–225. -/
theorem atomic_step_trace_shape (st : LoopState) (env : IterEnv) :
    ∃ t, (atomic_step st env).1 = stepEv2 st env ++ t := by
  unfold atomic_step
  split_ifs with h1 h2 h3
  · exact ⟨_, rfl⟩
  · exact ⟨_, rfl⟩
  · exact ⟨stepWaitEv st env ++ (stepCommit st env).events,
      by simp [List.append_assoc]⟩
  · exact ⟨stepWaitEv st env ++ ((stepCommit st env).events ++ releaseEv st),
      by simp [List.append_assoc]⟩

/-- C7: when an out-fence handle `fd` is pending at loop entry, the
first three events of the iteration are the fd import, the GPU-side wait,
and only then the renderer invocation for the current frame — and
the import phase clears the pending-handle field. -/
theorem kms_fence_before_draw (st : LoopState) (env : IterEnv) (fd : Int)
    (hfd : st.drm.kms_out_fence_fd = fd) (h : fd ≠ -1) :
    (∃ rest, (atomic_step st env).1 =
      Ev.createKmsFence fd :: Ev.gpuWait :: Ev.draw st.i :: rest)
    ∧ (fenceImportPhase st.drm).2.kms_out_fence_fd = -1 := by
  have hpend : st.drm.kms_out_fence_fd ≠ -1 := by rw [hfd]; exact h
  have hfp : (fenceImportPhase st.drm).1 =
      [Ev.createKmsFence fd, Ev.gpuWait] := by
    unfold fenceImportPhase
    rw [if_pos hpend, hfd]
  constructor
  · rcases atomic_step_trace_shape st env with ⟨t, ht⟩
    refine ⟨[Ev.createGpuFence, Ev.swapBuffers, Ev.exportGpuFence env.dup_fd,
      Ev.destroyGpuFence] ++ t, ?_⟩
    rw [ht]
    unfold stepEv2
    rw [hfp]
    simp
  · unfold fenceImportPhase
    rw [if_pos hpend]

/-- Witness for the C7 theorem: out-fence 9 pending after iteration 0. -/
theorem kms_fence_before_draw_witness :
    (∃ rest, (atomic_step pendingState okIter).1 =
      Ev.createKmsFence 9 :: Ev.gpuWait :: Ev.draw 1 :: rest)
    ∧ (fenceImportPhase pendingState.drm).2.kms_out_fence_fd = -1 :=
  kms_fence_before_draw pendingState okIter 9 (by decide) (by decide)

theorem mem_add_plane_of_mem (drm : Drm) (req : List Triple) (o : Nat)
    (n : String) (v : PropValue) (t : Triple) (h : t ∈ req) :
    t ∈ (add_plane_property drm req o n v).1 := by
  simp only [add_plane_property, drmModeAtomicAddProperty]
  split_ifs <;> simp [h]

theorem mem_add_crtc_of_mem (drm : Drm) (req : List Triple) (o : Nat)
    (n : String) (v : PropValue) (t : Triple) (h : t ∈ req) :
    t ∈ (add_crtc_property drm req o n v).1 := by
  simp only [add_crtc_property, drmModeAtomicAddProperty]
  split_ifs <;> simp [h]

theorem self_mem_add_plane (drm : Drm) (req : List Triple) (o : Nat)
    (n : String) (v : PropValue)
    (h : 0 ≤ findPropId (-1) drm.tables.planeProps n) :
    Triple.mk o (findPropId (-1) drm.tables.planeProps n) v ∈
      (add_plane_property drm req o n v).1 := by
  simp only [add_plane_property, drmModeAtomicAddProperty]
  rw [if_neg (by omega)]
  simp

theorem mem_fenceProps_of_mem (drm : Drm) (req : List Triple) (t : Triple)
    (h : t ∈ req) : t ∈ fenceProps drm req := by
  unfold fenceProps
  split_ifs with h1
  · exact mem_add_plane_of_mem _ _ _ _ _ _ (mem_add_crtc_of_mem _ _ _ _ _ _ h)
  · exact h

theorem in_fence_mem_fenceProps (drm : Drm) (req : List Triple)
    (hin : drm.kms_in_fence_fd ≠ -1)
    (hpid : 0 ≤ findPropId (-1) drm.tables.planeProps "IN_FENCE_FD") :
    Triple.mk drm.plane_id (findPropId (-1) drm.tables.planeProps "IN_FENCE_FD")
      (.num drm.kms_in_fence_fd) ∈ fenceProps drm req := by
  unfold fenceProps
  rw [if_pos hin]
  exact self_mem_add_plane _ _ _ _ _ hpid

/-- Every `commitSubmit` event of a `drm_atomic_commit` call carries the
`flags` argument and the request assembled by the plane and fence phases. -/
theorem commit_submit_req (drm : Drm) (cenv : CommitEnv) (fb_id flags : Nat)
    (req : List Triple) (f : Nat) (r : Int)
    (h : Ev.commitSubmit req f r ∈
      (drm_atomic_commit drm cenv fb_id flags).events) :
    f = flags ∧ ∃ req0, req = fenceProps drm (planeProps drm fb_id req0) := by
  rcases commit_cases drm cenv fb_id flags with hc | ⟨req0, hc⟩ <;> rw [hc] at h
  · simp at h
  · revert h
    unfold commitPhase
    split_ifs with hr hcond hf <;> intro h <;> simp at h <;>
      exact ⟨h.2.1, req0, h.1⟩

theorem mem_commitFlagsOf (l : List Ev) (req : List Triple) (f : Nat) (r : Int)
    (h : Ev.commitSubmit req f r ∈ l) : f ∈ commitFlagsOf l := by
  unfold commitFlagsOf
  exact List.mem_filterMap.mpr ⟨_, h, rfl⟩

theorem stepDrm2_tables (st : LoopState) (env : IterEnv) :
    (stepDrm2 st env).tables = st.drm.tables := by
  unfold stepDrm2 fenceImportPhase
  split_ifs <;> rfl

theorem stepDrm2_plane_id (st : LoopState) (env : IterEnv) :
    (stepDrm2 st env).plane_id = st.drm.plane_id := by
  unfold stepDrm2 fenceImportPhase
  split_ifs <;> rfl

theorem stepDrm2_in_fence (st : LoopState) (env : IterEnv) :
    (stepDrm2 st env).kms_in_fence_fd = env.dup_fd := by
  unfold stepDrm2
  rfl

/-- A `commitSubmit` event in an iteration trace comes from the
`drm_atomic_commit` call of that iteration. -/
theorem commitSubmit_mem_step (st : LoopState) (env : IterEnv)
    (req : List Triple) (f : Nat) (r : Int)
    (hmem : Ev.commitSubmit req f r ∈ (atomic_step st env).1) :
    Ev.commitSubmit req f r ∈ (stepCommit st env).events := by
  revert hmem
  unfold atomic_step
  have hs2 : ∀ (hx : Ev.commitSubmit req f r ∈ stepEv2 st env), False := by
    intro hx
    have := mem_commitFlagsOf _ _ _ _ hx
    rw [commitFlagsOf_stepEv2] at this
    simp at this
  have hsw : ∀ (hx : Ev.commitSubmit req f r ∈ stepWaitEv st env), False := by
    intro hx
    have := mem_commitFlagsOf _ _ _ _ hx
    rw [commitFlagsOf_stepWaitEv] at this
    simp at this
  have hre : ∀ (hx : Ev.commitSubmit req f r ∈ releaseEv st), False := by
    intro hx
    have := mem_commitFlagsOf _ _ _ _ hx
    rw [commitFlagsOf_releaseEv] at this
    simp at this
  split_ifs with h1 h2 h3 <;> intro hmem
  · rw [List.mem_append] at hmem
    rcases hmem with hm | hm
    · exact absurd hm (fun hx => hs2 hx)
    · simp at hm
  · rw [List.mem_append] at hmem
    rcases hmem with hm | hm
    · exact absurd hm (fun hx => hs2 hx)
    · simp at hm
  · rw [List.mem_append, List.mem_append] at hmem
    rcases hmem with (hm | hm) | hm
    · exact absurd hm (fun hx => hs2 hx)
    · exact absurd hm (fun hx => hsw hx)
    · exact hm
  · rw [List.mem_append, List.mem_append, List.mem_append] at hmem
    rcases hmem with ((hm | hm) | hm) | hm
    · exact absurd hm (fun hx => hs2 hx)
    · exact absurd hm (fun hx => hsw hx)
    · exact hm
    · exact absurd hm (fun hx => hre hx)

/-- C6: with fencing enabled (the exported fd is not −1) and `IN_FENCE_FD`
present in the plane table, the trace of the iteration records the export of
the GPU fence as fd `env.dup_fd`, and every transaction submitted in the
same iteration carries the `IN_FENCE_FD` triple whose value is exactly
that fd — the round-trip identity between export and the submitted
in-fence value. -/
theorem in_fence_round_trip (st : LoopState) (env : IterEnv)
    (hdup : env.dup_fd ≠ -1)
    (hpid : 0 ≤ findPropId (-1) st.drm.tables.planeProps "IN_FENCE_FD") :
    Ev.exportGpuFence env.dup_fd ∈ (atomic_step st env).1 ∧
    ∀ req f r, Ev.commitSubmit req f r ∈ (atomic_step st env).1 →
      Triple.mk st.drm.plane_id
        (findPropId (-1) st.drm.tables.planeProps "IN_FENCE_FD")
        (.num env.dup_fd) ∈ req := by
  constructor
  · rcases atomic_step_trace_shape st env with ⟨t, ht⟩
    rw [ht, List.mem_append]
    left
    unfold stepEv2
    simp
  · intro req f r hmem
    have hcs := commitSubmit_mem_step st env req f r hmem
    unfold stepCommit at hcs
    obtain ⟨hf, req0, hreq⟩ :=
      commit_submit_req (stepDrm2 st env) env.commit env.fb_id st.flags req f r hcs
    rw [hreq]
    have hmem2 := in_fence_mem_fenceProps (stepDrm2 st env)
      (planeProps (stepDrm2 st env) env.fb_id req0)
      (by rw [stepDrm2_in_fence]; exact hdup)
      (by rw [stepDrm2_tables]; exact hpid)
    rw [stepDrm2_plane_id, stepDrm2_tables, stepDrm2_in_fence] at hmem2
    exact hmem2

/-- Witness for the C6 theorem: fd 5 exported and attached in iteration 1. -/
theorem in_fence_round_trip_witness :
    Ev.exportGpuFence 5 ∈ (atomic_step pendingState okIter).1 ∧
    Triple.mk 3 50 (.num 5) ∈
      fenceProps (stepDrm2 pendingState okIter)
        (planeProps (stepDrm2 pendingState okIter) 200 []) :=
  ⟨(in_fence_round_trip pendingState okIter (by decide) (by decide)).1,
   (in_fence_round_trip pendingState okIter (by decide) (by decide)).2
     (fenceProps (stepDrm2 pendingState okIter)
       (planeProps (stepDrm2 pendingState okIter) 200 []))
     DRM_MODE_ATOMIC_NONBLOCK 0 (by decide)⟩

/-- The eight geometry triples written by the plane phase, under the
hypothesis that each geometry name resolves in the plane table. -/
theorem geometry_mem_planeProps (drm : Drm) (fb_id : Nat) (req0 : List Triple)
    (h1 : 0 ≤ findPropId (-1) drm.tables.planeProps "SRC_X")
    (h2 : 0 ≤ findPropId (-1) drm.tables.planeProps "SRC_Y")
    (h3 : 0 ≤ findPropId (-1) drm.tables.planeProps "SRC_W")
    (h4 : 0 ≤ findPropId (-1) drm.tables.planeProps "SRC_H")
    (h5 : 0 ≤ findPropId (-1) drm.tables.planeProps "CRTC_X")
    (h6 : 0 ≤ findPropId (-1) drm.tables.planeProps "CRTC_Y")
    (h7 : 0 ≤ findPropId (-1) drm.tables.planeProps "CRTC_W")
    (h8 : 0 ≤ findPropId (-1) drm.tables.planeProps "CRTC_H") :
    Triple.mk drm.plane_id (findPropId (-1) drm.tables.planeProps "SRC_X")
      (.num 0) ∈ planeProps drm fb_id req0 ∧
    Triple.mk drm.plane_id (findPropId (-1) drm.tables.planeProps "SRC_Y")
      (.num 0) ∈ planeProps drm fb_id req0 ∧
    Triple.mk drm.plane_id (findPropId (-1) drm.tables.planeProps "SRC_W")
      (.num ((drm.hdisplay : Int) * 65536)) ∈ planeProps drm fb_id req0 ∧
    Triple.mk drm.plane_id (findPropId (-1) drm.tables.planeProps "SRC_H")
      (.num ((drm.vdisplay : Int) * 65536)) ∈ planeProps drm fb_id req0 ∧
    Triple.mk drm.plane_id (findPropId (-1) drm.tables.planeProps "CRTC_X")
      (.num 0) ∈ planeProps drm fb_id req0 ∧
    Triple.mk drm.plane_id (findPropId (-1) drm.tables.planeProps "CRTC_Y")
      (.num 0) ∈ planeProps drm fb_id req0 ∧
    Triple.mk drm.plane_id (findPropId (-1) drm.tables.planeProps "CRTC_W")
      (.num (drm.hdisplay : Int)) ∈ planeProps drm fb_id req0 ∧
    Triple.mk drm.plane_id (findPropId (-1) drm.tables.planeProps "CRTC_H")
      (.num (drm.vdisplay : Int)) ∈ planeProps drm fb_id req0 := by
  simp only [planeProps]
  refine ⟨?_, ?_, ?_, ?_, ?_, ?_, ?_, ?_⟩ <;>
    (repeat
      first
        | exact self_mem_add_plane _ _ _ _ _ (by assumption)
        | apply mem_add_plane_of_mem)

/-- C8: every transaction actually submitted by `drm_atomic_commit`
(whatever the frame and flags) carries the full-mode plane geometry:
source rectangle (0, 0, hdisplay·2^16, vdisplay·2^16) in 16.16 fixed
point and destination rectangle (0, 0, hdisplay, vdisplay). -/
theorem plane_geometry_full_mode (drm : Drm) (cenv : CommitEnv)
    (fb_id flags : Nat) (req : List Triple) (f : Nat) (r : Int)
    (h1 : 0 ≤ findPropId (-1) drm.tables.planeProps "SRC_X")
    (h2 : 0 ≤ findPropId (-1) drm.tables.planeProps "SRC_Y")
    (h3 : 0 ≤ findPropId (-1) drm.tables.planeProps "SRC_W")
    (h4 : 0 ≤ findPropId (-1) drm.tables.planeProps "SRC_H")
    (h5 : 0 ≤ findPropId (-1) drm.tables.planeProps "CRTC_X")
    (h6 : 0 ≤ findPropId (-1) drm.tables.planeProps "CRTC_Y")
    (h7 : 0 ≤ findPropId (-1) drm.tables.planeProps "CRTC_W")
    (h8 : 0 ≤ findPropId (-1) drm.tables.planeProps "CRTC_H")
    (hmem : Ev.commitSubmit req f r ∈
      (drm_atomic_commit drm cenv fb_id flags).events) :
    Triple.mk drm.plane_id (findPropId (-1) drm.tables.planeProps "SRC_X")
      (.num 0) ∈ req ∧
    Triple.mk drm.plane_id (findPropId (-1) drm.tables.planeProps "SRC_Y")
      (.num 0) ∈ req ∧
    Triple.mk drm.plane_id (findPropId (-1) drm.tables.planeProps "SRC_W")
      (.num ((drm.hdisplay : Int) * 65536)) ∈ req ∧
    Triple.mk drm.plane_id (findPropId (-1) drm.tables.planeProps "SRC_H")
      (.num ((drm.vdisplay : Int) * 65536)) ∈ req ∧
    Triple.mk drm.plane_id (findPropId (-1) drm.tables.planeProps "CRTC_X")
      (.num 0) ∈ req ∧
    Triple.mk drm.plane_id (findPropId (-1) drm.tables.planeProps "CRTC_Y")
      (.num 0) ∈ req ∧
    Triple.mk drm.plane_id (findPropId (-1) drm.tables.planeProps "CRTC_W")
      (.num (drm.hdisplay : Int)) ∈ req ∧
    Triple.mk drm.plane_id (findPropId (-1) drm.tables.planeProps "CRTC_H")
      (.num (drm.vdisplay : Int)) ∈ req := by
  obtain ⟨hf, req0, hreq⟩ := commit_submit_req drm cenv fb_id flags req f r hmem
  subst hreq
  have hg := geometry_mem_planeProps drm fb_id req0 h1 h2 h3 h4 h5 h6 h7 h8
  exact ⟨mem_fenceProps_of_mem _ _ _ hg.1,
    mem_fenceProps_of_mem _ _ _ hg.2.1,
    mem_fenceProps_of_mem _ _ _ hg.2.2.1,
    mem_fenceProps_of_mem _ _ _ hg.2.2.2.1,
    mem_fenceProps_of_mem _ _ _ hg.2.2.2.2.1,
    mem_fenceProps_of_mem _ _ _ hg.2.2.2.2.2.1,
    mem_fenceProps_of_mem _ _ _ hg.2.2.2.2.2.2.1,
    mem_fenceProps_of_mem _ _ _ hg.2.2.2.2.2.2.2⟩

/-- Witness for C8 at mode 1920×1080: source width 1920·2^16, destination
height 1080. -/
theorem plane_geometry_full_mode_witness :
    Triple.mk 3 44 (.num (1920 * 65536)) ∈
      fenceProps goodDrm (planeProps goodDrm 200 []) ∧
    Triple.mk 3 49 (.num 1080) ∈
      fenceProps goodDrm (planeProps goodDrm 200 []) :=
  ⟨(plane_geometry_full_mode goodDrm okCommit 200 DRM_MODE_ATOMIC_NONBLOCK
      (fenceProps goodDrm (planeProps goodDrm 200 []))
      DRM_MODE_ATOMIC_NONBLOCK 0 (by decide) (by decide) (by decide) (by decide)
      (by decide) (by decide) (by decide) (by decide) (by decide)).2.2.1,
   (plane_geometry_full_mode goodDrm okCommit 200 DRM_MODE_ATOMIC_NONBLOCK
      (fenceProps goodDrm (planeProps goodDrm 200 []))
      DRM_MODE_ATOMIC_NONBLOCK 0 (by decide) (by decide) (by decide) (by decide)
      (by decide) (by decide) (by decide) (by decide)
      (by decide)).2.2.2.2.2.2.2⟩

/-- C10: with fencing enabled (`kms_in_fence_fd ≠ -1`), a successful
commit closes the in-fence fd and resets the field to −1; a failed commit
(submission rejected or request abandoned) leaves the whole `struct drm`
unchanged and closes nothing. -/
theorem in_fence_close_on_success (drm : Drm) (cenv : CommitEnv)
    (fb_id flags : Nat) (hin : drm.kms_in_fence_fd ≠ -1) :
    ((drm_atomic_commit drm cenv fb_id flags).ret = 0 →
      (drm_atomic_commit drm cenv fb_id flags).drm.kms_in_fence_fd = -1 ∧
      Ev.closeInFence drm.kms_in_fence_fd ∈
        (drm_atomic_commit drm cenv fb_id flags).events)
    ∧ ((drm_atomic_commit drm cenv fb_id flags).ret ≠ 0 →
      (drm_atomic_commit drm cenv fb_id flags).drm = drm ∧
      ∀ fd, Ev.closeInFence fd ∉
        (drm_atomic_commit drm cenv fb_id flags).events) := by
  rcases commit_cases drm cenv fb_id flags with hc | ⟨req0, hc⟩ <;> rw [hc]
  · exact ⟨fun h => by simp at h, fun _ => ⟨rfl, by simp⟩⟩
  · by_cases hr : cenv.commit_ret ≠ 0
    · simp only [commitPhase]
      rw [if_pos hr]
      exact ⟨fun h => absurd h hr, fun _ => ⟨rfl, by simp⟩⟩
    · simp only [commitPhase]
      rw [if_neg hr, if_pos hin]
      exact ⟨fun _ => ⟨rfl, by simp⟩, fun h => absurd rfl h⟩

/-- Witness for C10: `goodDrm` has `kms_in_fence_fd = 0 ≠ -1`; the
successful commit closes fd 0 and resets the field. -/
theorem in_fence_close_on_success_witness :
    (drm_atomic_commit goodDrm okCommit 200
      DRM_MODE_ATOMIC_NONBLOCK).drm.kms_in_fence_fd = -1 ∧
    Ev.closeInFence 0 ∈
      (drm_atomic_commit goodDrm okCommit 200 DRM_MODE_ATOMIC_NONBLOCK).events :=
  (in_fence_close_on_success goodDrm okCommit 200 DRM_MODE_ATOMIC_NONBLOCK
    (by decide)).1 (by decide)

/-- C1 (amended): a resolution failure of a modeset property (`MODE_ID` or
`ACTIVE` on the crtc) or a blob-creation failure abandons the whole
transaction before submission: `drm_atomic_commit` returns −1 with no
events (in particular no `commitSubmit`) and the state untouched. -/
theorem modeset_resolution_failure_abandons (drm : Drm) (cenv : CommitEnv)
    (fb_id flags : Nat)
    (hms : flags &&& DRM_MODE_ATOMIC_ALLOW_MODESET ≠ 0)
    (hfail : cenv.blob_ok = false ∨
      findPropId (-1) drm.tables.crtcProps "MODE_ID" < 0 ∨
      findPropId (-1) drm.tables.crtcProps "ACTIVE" < 0) :
    drm_atomic_commit drm cenv fb_id flags = ⟨-1, drm, []⟩ := by
  unfold drm_atomic_commit
  rw [if_pos hms]
  have hnone : modesetProps drm cenv [] = none := by
    simp only [modesetProps]
    split_ifs with a1 a2 a3 a4 <;> try rfl
    exfalso
    rcases hfail with hb | hm | ha
    · exact a2 hb
    · refine a3 ?_
      simp only [add_crtc_property]
      rw [if_pos hm]
      show -EINVAL < 0
      decide
    · refine a4 ?_
      simp only [add_crtc_property]
      rw [if_pos ha]
      show -EINVAL < 0
      decide
  rw [hnone]

/-- Witness for the amended C1 theorem: crtc table without `MODE_ID`. -/
theorem modeset_resolution_failure_abandons_witness :
    drm_atomic_commit noModeIdDrm okCommit 5
      (DRM_MODE_ATOMIC_NONBLOCK ||| DRM_MODE_ATOMIC_ALLOW_MODESET) =
      ⟨-1, noModeIdDrm, []⟩ :=
  modeset_resolution_failure_abandons noModeIdDrm okCommit 5
    (DRM_MODE_ATOMIC_NONBLOCK ||| DRM_MODE_ATOMIC_ALLOW_MODESET)
    (by decide) (by decide)

/-- C1 counterexample: over `cDrm` (plane table without `SRC_X`) the
resolution of `SRC_X` fails with −EINVAL, yet `drmModeAtomicCommit` is
still invoked and succeeds: the transaction is submitted with the other
nine plane triples accumulated — the claim that any resolution failure
abandons the transaction before submission fails for the plane
properties, whose return values the source ignores. -/
theorem plane_resolution_failure_still_submitted :
    (add_plane_property cDrm [] cDrm.plane_id "SRC_X" (.num 0)).2 = -EINVAL
    ∧ commitFlagsOf
        (drm_atomic_commit cDrm okCommit 5 DRM_MODE_ATOMIC_NONBLOCK).events
        = [DRM_MODE_ATOMIC_NONBLOCK]
    ∧ (drm_atomic_commit cDrm okCommit 5 DRM_MODE_ATOMIC_NONBLOCK).ret = 0
    ∧ (fenceProps cDrm (planeProps cDrm 5 [])).length = 9 := by
  refine ⟨?_, ?_, ?_, ?_⟩ <;> decide

/-- C2: evaluation at the failing input.  With `CRTC_ID` absent from the
connector table, `add_connector_property` does not fail: `prop_id`
keeps its initial value 0 (the source initialises it to 0, unlike the −1
of the crtc/plane variants), the `prop_id < 0` check passes, and a triple
with property id 0 is appended with a nonnegative return; the crtc and
plane variants return −EINVAL and append nothing for the same absent
name. -/
theorem connector_absent_name_not_rejected :
    (add_connector_property bugDrm [] 7 "CRTC_ID" (.num 2)).2 = 1
    ∧ (add_connector_property bugDrm [] 7 "CRTC_ID" (.num 2)).1 =
        [⟨7, 0, .num 2⟩]
    ∧ (add_crtc_property bugDrm [] 7 "CRTC_ID" (.num 2)).2 = -EINVAL
    ∧ (add_crtc_property bugDrm [] 7 "CRTC_ID" (.num 2)).1 = []
    ∧ (add_plane_property bugDrm [] 7 "CRTC_ID" (.num 2)).2 = -EINVAL := by
  refine ⟨?_, ?_, ?_, ?_, ?_⟩ <;> decide

end KmsCube
